import Mathlib

/-!
Shallow embedding of `src/Desktop/2-main/app.py`, a Flask service that links
Telegram users to Google Calendar via OAuth and sends event reminders.

Modelling conventions:
* Python `dict.get(k)` / possibly-missing keys become `Option` fields.
* A stored `chat_id` dict entry is `Option (Option String)`: the outer option
  is key presence, the inner one is the Python value (`None` or a string).
* Instants are rationals counting seconds (naive UTC after the code's
  `tzinfo=None` drop); `total_seconds() / 60` becomes exact division in `ℚ`.
* External library calls (`requests.post`, the Google API client,
  `datetime.fromisoformat`) are oracle parameters; a raised Python exception
  is the oracle returning `none` / `.error`.
* Network side effects are recorded in an `Effect` trace; Python exceptions
  escaping repository code are `Except` errors (`PyError`).
-/

/-- A Python value used as a chat destination: Telegram accepts ints and
strings; the code can also pass `None` through from the session. -/
inductive Dest where
  | ofInt (n : Int)
  | ofStr (s : String)
  | pyNone
deriving DecidableEq, Repr

/-- The credentials dict written by `auth_google_callback` (token,
refresh_token, token_uri, client_id, client_secret); each Google credential
attribute may be Python `None`. -/
structure CredRec where
  token : Option String
  refresh_token : Option String
  token_uri : Option String
  client_id : Option String
  client_secret : Option String
deriving DecidableEq, Repr

/-- The `start` sub-dict of a Google Calendar event item. -/
structure EventStart where
  dateTime : Option String
  date : Option String
deriving DecidableEq, Repr

/-- A Google Calendar event item as the code reads it (every key accessed
with `.get`, hence optional). -/
structure CalendarEvent where
  id : Option String
  summary : Option String
  start : Option EventStart
  location : Option String
  description : Option String
deriving DecidableEq, Repr

/-- The response of `service.events().list(...).execute()`:
a dict whose `items` key may be absent. -/
structure EventsResult where
  items : Option (List CalendarEvent)
deriving DecidableEq, Repr

/-- One value of `users_storage`: the outer options model dict key presence
(`'credentials' in user_data`, `'chat_id' in user_data`); the stored chat id
value itself may be Python `None` (inner option). -/
structure UserData where
  credentials : Option CredRec
  chat_id : Option (Option String)
deriving DecidableEq, Repr

/-- The Flask session slots used by the OAuth flow (`session.get` may give
`None`). -/
structure OAuthSession where
  telegram_user_id : Option String
  chat_id : Option String
deriving DecidableEq, Repr

/-- `message['chat']` of a Telegram update payload. -/
structure TgChat where
  id : Option Int
deriving DecidableEq, Repr

/-- `message['from']` of a Telegram update payload. -/
structure TgFrom where
  id : Option Int
deriving DecidableEq, Repr

/-- `data['message']`: each key may be absent in a raw payload. -/
structure TgMessage where
  chat : Option TgChat
  from_ : Option TgFrom
  text : Option String
deriving DecidableEq, Repr

/-- The JSON body POSTed to `/webhook`. -/
structure TgUpdate where
  message : Option TgMessage
deriving DecidableEq, Repr

/-- A Python exception escaping the handler (turned into a 500 by Flask). -/
inductive PyError where
  | keyError
  | typeError
deriving DecidableEq, Repr

/-- The only success body `telegram_webhook` ever returns:
`jsonify({'ok': True})`. -/
inductive WebhookBody where
  | okTrue
deriving DecidableEq, Repr

/-- An observable side effect: a Google Calendar fetch
(`get_calendar_events(creds)`) or a Telegram send
(`send_telegram_message(chat, text)`). -/
inductive Effect where
  | fetchEvents (creds : CredRec)
  | sendMessage (chat : Dest) (text : String)
deriving DecidableEq, Repr

/-- An HTTP response as seen by `requests`; only the status code matters to
`raise_for_status`. -/
structure HttpResp where
  status : Nat
deriving DecidableEq, Repr

/-- The JSON payload of `send_telegram_message`. -/
structure TgSendPayload where
  chat_id : Dest
  text : String
  parse_mode : String
deriving DecidableEq, Repr

/-- Python `f"...{x}..."` rendering of an optional string (`None` prints as
`"None"`). -/
def pyStr : Option String → String
  | some s => s
  | none => "None"

/-- Python `f"...{x}..."` rendering of a chat destination. -/
def destStr : Dest → String
  | .ofInt n => toString n
  | .ofStr s => s
  | .pyNone => "None"

/-- The URL built by `send_telegram_message` from the (possibly unset)
`TELEGRAM_BOT_TOKEN`. -/
def sendMessageUrl (token : Option String) : String :=
  "https://api.telegram.org/bot" ++ pyStr token ++ "/sendMessage"

/-- `send_telegram_message(chat_id, text)` (app.py lines 51-66). The
`requests.post` call plus `raise_for_status` is the oracle `httpPost`; any
exception (`.error`, or a status of 400 and above) is caught, logged and
turned into `False`. Returns the boolean result and the log lines. -/
def send_telegram_message (token : Option String)
    (httpPost : String → TgSendPayload → Except String HttpResp)
    (chat_id : Dest) (text : String) : Bool × List String :=
  let url := sendMessageUrl token
  match httpPost url { chat_id := chat_id, text := text, parse_mode := "HTML" } with
  | .error e => (false, ["Ошибка отправки сообщения: " ++ e])
  | .ok resp =>
    if 400 ≤ resp.status then
      (false, ["Ошибка отправки сообщения: " ++ ("HTTPError " ++ toString resp.status ++ " for url " ++ url)])
    else
      (true, ["Сообщение отправлено в чат " ++ destStr chat_id])

/-- `get_calendar_events(credentials_dict)` (app.py lines 68-99). Building
the `Credentials`, the service client and executing the windowed list
request is the oracle `api`; any exception yields `.error`. On success the
code returns `events_result.get('items', [])`. Returns the event list and
the log lines. -/
def get_calendar_events (api : CredRec → Except String EventsResult)
    (cd : CredRec) : List CalendarEvent × List String :=
  match api cd with
  | .error e => ([], ["Ошибка получения событий: " ++ e])
  | .ok r =>
    let events := r.items.getD []
    (events, ["Получено " ++ toString events.length ++ " событий"])

/-- `start = event.get('start', {})`; `start.get('dateTime', start.get('date'))`. -/
def startString (e : CalendarEvent) : Option String :=
  let st := e.start.getD { dateTime := none, date := none }
  match st.dateTime with
  | some s => some s
  | none => st.date

/-- Python's `'T' in start_time`: membership of one character in a string,
as containment in its character list. -/
def charIn (c : Char) (s : String) : Bool :=
  s.data.contains c

/-- The reminder message built at app.py line 125. -/
def reminderText (e : CalendarEvent) : String :=
  "🔔 <b>Напоминание!</b>\n\n📅 " ++ e.summary.getD "Без названия" ++ "\n⏰ Начало через 15 минут"

/-- The per-event loop of `check_upcoming_events` (app.py lines 113-126) for
one user. `parse` models `datetime.fromisoformat(s.replace('Z', '+00:00'))`
followed by the `tzinfo=None` drop, giving naive-UTC seconds; it returns
`none` where Python would raise `ValueError`. A missing start string makes
`'T' in start_time` raise `TypeError`. Either exception is caught by the
per-user `except`, so it aborts the remaining events of this user while the
effects already produced stand. -/
def processEvents (parse : String → Option ℚ) (now : ℚ) (chat : Dest) :
    List CalendarEvent → List Effect
  | [] => []
  | e :: rest =>
    match startString e with
    | none => []
    | some s =>
      if charIn 'T' s then
        match parse s with
        | none => []
        | some t =>
          let time_diff := (t - now) / 60
          if 14 ≤ time_diff ∧ time_diff ≤ 16 then
            Effect.sendMessage chat (reminderText e) :: processEvents parse now chat rest
          else
            processEvents parse now chat rest
      else
        processEvents parse now chat rest

/-- The stored chat value passed to `send_telegram_message` by the
scheduler. -/
def destOfPy : Option String → Dest
  | some s => .ofStr s
  | none => .pyNone

/-- The per-user body of `check_upcoming_events` (app.py lines 105-126):
skip the record unless both the `credentials` and `chat_id` keys are
present; otherwise fetch the user's events and run the reminder loop.
`getEvents` is the (total, never-raising) result of `get_calendar_events`
for given credentials. -/
def checkUser (parse : String → Option ℚ) (now : ℚ)
    (getEvents : CredRec → List CalendarEvent) (ud : UserData) : List Effect :=
  match ud.credentials, ud.chat_id with
  | some creds, some chatVal =>
    Effect.fetchEvents creds :: processEvents parse now (destOfPy chatVal) (getEvents creds)
  | _, _ => []

/-- One firing of the scheduler job `check_upcoming_events` (app.py lines
101-129) over the whole `users_storage`, as the trace of effects it
produces. Per-user failures are caught by the per-user `except`, so the
iteration always reaches every user. -/
def check_upcoming_events (parse : String → Option ℚ) (now : ℚ)
    (getEvents : CredRec → List CalendarEvent) :
    List (String × UserData) → List Effect
  | [] => []
  | (_, ud) :: rest =>
    checkUser parse now getEvents ud ++ check_upcoming_events parse now getEvents rest

/-- The constant replies of `telegram_webhook` (app.py lines 246-283). -/
def notConnectedReply : String :=
  "❌ Сначала подключите Google Calendar командой /start"

/-- `/status` reply when the user is in `users_storage`. -/
def statusConnectedReply : String :=
  "✅ Google Calendar подключён"

/-- `/status` reply when the user is absent from `users_storage`. -/
def statusNotConnectedReply : String :=
  "❌ Google Calendar не подключён. Используйте /start"

/-- `/events` reply when the fetch returned no events. -/
def noEventsReply : String :=
  "📭 Нет предстоящих событий на ближайшие 7 дней"

/-- The static `/help` reply (app.py lines 275-282). -/
def helpReply : String :=
  "📖 <b>Доступные команды:</b>\n\n/start - Подключить Google Calendar\n/events - Показать предстоящие события\n/status - Проверить статус подключения\n/help - Показать эту справку\n\n🔔 Бот автоматически присылает напоминания за 15 минут до начала события."

/-- The `/start` reply with its embedded authorization link (app.py lines
247-248). -/
def startReply (baseURL user_id : String) (chat_id : Int) : String :=
  let auth_url := baseURL ++ "/auth/google?user_id=" ++ user_id ++ "&chat_id=" ++ toString chat_id
  "👋 Привет!\n\nЯ бот для напоминаний о событиях Google Calendar.\n\n🔗 <a href=\"" ++ auth_url ++ "\">Нажмите здесь для подключения Google Calendar</a>"

/-- One line of the `/events` reply (app.py line 260). Slicing a missing
start string (`None[:16]`) raises `TypeError`. -/
def eventLine (e : CalendarEvent) : Except PyError String :=
  match startString e with
  | none => .error .typeError
  | some s =>
    .ok ("• " ++ e.summary.getD "Без названия" ++ "\n  ⏰ " ++ (s.take 16).replace "T" " " ++ "\n\n")

/-- The `reply += ...` accumulation over `events[:5]` (app.py lines
256-260); the first exception aborts the whole reply. -/
def eventLines : List CalendarEvent → Except PyError String
  | [] => .ok ""
  | e :: rest =>
    match eventLine e with
    | .error err => .error err
    | .ok line =>
      match eventLines rest with
      | .error err => .error err
      | .ok restStr => .ok (line ++ restStr)

/-- The `/events` reply construction (app.py lines 254-262): header plus the
first five event lines, or the no-events message. -/
def formatEventsReply (events : List CalendarEvent) : Except PyError String :=
  match events with
  | [] => .ok noEventsReply
  | _ =>
    match eventLines (events.take 5) with
    | .error err => .error err
    | .ok body => .ok ("📅 <b>Ваши события:</b>\n\n" ++ body)

/-- `telegram_webhook` (app.py lines 235-285). `data` is the parsed JSON
body; the dict indexings `message['chat']['id']` and `message['from']['id']`
raise `KeyError` when the key is absent. `getEvents` is the (never-raising)
result of `get_calendar_events`. Returns the effect trace plus the response
body, or the escaped Python exception. -/
def telegram_webhook (getEvents : CredRec → List CalendarEvent)
    (baseURL : String) (store : List (String × UserData)) (data : TgUpdate) :
    Except PyError (List Effect × WebhookBody) :=
  match data.message with
  | none => .ok ([], .okTrue)
  | some m =>
    match m.chat with
    | none => .error .keyError
    | some chatObj =>
      match chatObj.id with
      | none => .error .keyError
      | some chat_id =>
        match m.from_ with
        | none => .error .keyError
        | some fromObj =>
          match fromObj.id with
          | none => .error .keyError
          | some fromId =>
            let user_id := toString fromId
            let text := m.text.getD ""
            if text = "/start" then
              .ok ([.sendMessage (.ofInt chat_id) (startReply baseURL user_id chat_id)], .okTrue)
            else if text = "/events" then
              match store.lookup user_id with
              | some ud =>
                match ud.credentials with
                | some creds =>
                  match formatEventsReply (getEvents creds) with
                  | .error err => .error err
                  | .ok reply =>
                    .ok ([.fetchEvents creds, .sendMessage (.ofInt chat_id) reply], .okTrue)
                | none =>
                  .ok ([.sendMessage (.ofInt chat_id) notConnectedReply], .okTrue)
              | none =>
                .ok ([.sendMessage (.ofInt chat_id) notConnectedReply], .okTrue)
            else if text = "/status" then
              let reply :=
                if (store.lookup user_id).isSome then statusConnectedReply
                else statusNotConnectedReply
              .ok ([.sendMessage (.ofInt chat_id) reply], .okTrue)
            else if text = "/help" then
              .ok ([.sendMessage (.ofInt chat_id) helpReply], .okTrue)
            else
              .ok ([], .okTrue)

/-- One formatted event of the `/events/<user_id>` route (app.py lines
224-231). -/
structure FormattedEvent where
  id : Option String
  summary : String
  start : Option String
  location : String
  description : String
deriving DecidableEq, Repr

/-- The per-event formatting of `get_user_events`. -/
def formatEvent (e : CalendarEvent) : FormattedEvent :=
  { id := e.id
    summary := e.summary.getD "Без названия"
    start := startString e
    location := e.location.getD ""
    description := e.description.getD "" }

/-- The JSON body of the `/events/<user_id>` route. -/
inductive UserEventsBody where
  | err (msg : String)
  | ok (events : List FormattedEvent)
deriving DecidableEq, Repr

/-- `get_user_events(user_id)` (app.py lines 210-233): HTTP status code and
body. -/
def get_user_events (getEvents : CredRec → List CalendarEvent)
    (store : List (String × UserData)) (user_id : String) : Nat × UserEventsBody :=
  match store.lookup user_id with
  | none => (401, .err "User not authorized")
  | some ud =>
    match ud.credentials with
    | none => (401, .err "No credentials")
    | some creds => (200, .ok ((getEvents creds).map formatEvent))

/-- The HTTP result of `auth_google_callback`. -/
inductive CallbackResp where
  | successPage
  | errorPage (msg : String)
deriving DecidableEq, Repr

/-- Python dict assignment `users_storage[k] = v` on the association-list
model of the dict: replace the existing binding in place, else append. -/
def dictInsert : List (String × UserData) → String → UserData → List (String × UserData)
  | [], k, v => [(k, v)]
  | (k', v') :: rest, k, v =>
    if k' = k then (k, v) :: rest else (k', v') :: dictInsert rest k v

/-- The confirmation message sent after a successful authorization (app.py
lines 189-192). -/
def confirmText : String :=
  "✅ <b>Google Calendar подключён!</b>\n\nТеперь вы будете получать напоминания о событиях за 15 минут до начала."

/-- `auth_google_callback` (app.py lines 164-208). `fetchTok` is the oracle
for `flow.fetch_token` plus reading `flow.credentials`; on exception the
route answers a plain-text 400 error page. On success, if the stashed
`telegram_user_id` is truthy the record is written and, if the stashed
`chat_id` is truthy, a confirmation message is sent. Returns the new store,
the effect trace and the HTTP result. -/
def auth_google_callback (fetchTok : Except String CredRec)
    (sess : OAuthSession) (store : List (String × UserData)) :
    List (String × UserData) × List Effect × CallbackResp :=
  match fetchTok with
  | .error e => (store, [], .errorPage ("Ошибка авторизации: " ++ e))
  | .ok creds =>
    match sess.telegram_user_id with
    | none => (store, [], .successPage)
    | some uid =>
      if uid = "" then (store, [], .successPage)
      else
        let store' := dictInsert store uid { credentials := some creds, chat_id := some sess.chat_id }
        let effs :=
          match sess.chat_id with
          | some c => if c = "" then [] else [Effect.sendMessage (.ofStr c) confirmText]
          | none => []
        (store', effs, .successPage)

/-- Executable well-formedness of one fetched event, as the claims
presuppose from the CalendarEvent data model: the start string exists and,
when it is a date-time (contains 'T'), it parses. Where this fails the code
raises inside the per-user loop. -/
def wfEvent (parse : String → Option ℚ) (e : CalendarEvent) : Bool :=
  match startString e with
  | none => false
  | some s => !charIn 'T' s || (parse s).isSome

/-- All events of a fetched list are well formed. -/
def wfEvents (parse : String → Option ℚ) (events : List CalendarEvent) : Bool :=
  events.all (wfEvent parse)

/-- Modelled from the claim wording (C1): an event qualifies for a reminder
exactly when its start string is a date-time (contains 'T') that parses to
an instant lying 14 to 16 minutes, inclusive, after `now`. -/
def qualifiesSpec (parse : String → Option ℚ) (now : ℚ) (e : CalendarEvent) : Bool :=
  match startString e with
  | none => false
  | some s =>
    charIn 'T' s &&
      match parse s with
      | none => false
      | some t => decide (14 ≤ (t - now) / 60) && decide ((t - now) / 60 ≤ 16)

/-- Modelled from the claim wording (C1): exactly one reminder send call per
qualifying event, in fetch order, and none for any other event. -/
def specReminderCalls (parse : String → Option ℚ) (now : ℚ) (chat : Dest)
    (events : List CalendarEvent) : List Effect :=
  events.filterMap fun e =>
    if qualifiesSpec parse now e then some (Effect.sendMessage chat (reminderText e)) else none

/-- A well-formed single-message webhook update used to state the
command-handler claims. -/
def mkMsgUpdate (chatId fromId : Int) (text : String) : TgUpdate :=
  { message := some { chat := some { id := some chatId }, from_ := some { id := some fromId }, text := some text } }

/-- The environment assumption for C8: the messaging platform rejects a
request (transport error, or HTTP status 400 and above, which
`raise_for_status` turns into an exception). -/
def rejectsSend : Except String HttpResp → Bool
  | .error _ => true
  | .ok resp => 400 ≤ resp.status

/-- Helper for C5: when every listed event has a start string, every reply
line builds without an exception. -/
theorem eventLines_ok :
    ∀ l : List CalendarEvent, (∀ e ∈ l, (startString e).isSome = true) →
      ∃ s, eventLines l = .ok s := by
  intro l
  induction l with
  | nil => intro _; exact ⟨"", rfl⟩
  | cons e rest ih =>
    intro h
    obtain ⟨s, hs⟩ := Option.isSome_iff_exists.mp (h e (List.mem_cons_self e rest))
    obtain ⟨s', hs'⟩ := ih fun e' he' => h e' (List.mem_cons_of_mem _ he')
    refine ⟨"• " ++ e.summary.getD "Без названия" ++ "\n  ⏰ " ++ (s.take 16).replace "T" " " ++ "\n\n" ++ s', ?_⟩
    simp [eventLines, eventLine, hs, hs']

/-- Helper for C5: the `/events` reply builds whenever the first five
fetched events all carry a start value. -/
theorem formatEventsReply_ok (events : List CalendarEvent)
    (h : ∀ e ∈ events.take 5, (startString e).isSome = true) :
    ∃ s, formatEventsReply events = .ok s := by
  match events with
  | [] => exact ⟨noEventsReply, rfl⟩
  | e :: rest =>
    obtain ⟨s, hs⟩ := eventLines_ok ((e :: rest).take 5) h
    refine ⟨"📅 <b>Ваши события:</b>\n\n" ++ s, ?_⟩
    have hdef : formatEventsReply (e :: rest) =
        match eventLines ((e :: rest).take 5) with
        | .error err => .error err
        | .ok body => .ok ("📅 <b>Ваши события:</b>\n\n" ++ body) := rfl
    rw [hdef, hs]

/-- C3: `get_calendar_events` never propagates an error: any failure of the
client-building/fetching oracle yields the empty list plus an error log,
and success yields exactly the fetched items (`items` defaulting to `[]`)
plus an info log. -/
theorem get_calendar_events_total (api : CredRec → Except String EventsResult)
    (cd : CredRec) (e : String) (r : EventsResult) :
    (api cd = .error e →
      get_calendar_events api cd = ([], ["Ошибка получения событий: " ++ e])) ∧
    (api cd = .ok r →
      get_calendar_events api cd =
        (r.items.getD [], ["Получено " ++ toString (r.items.getD []).length ++ " событий"])) := by
  constructor <;> intro h <;> simp [get_calendar_events, h]

/-- Witness for C3 at a concrete failing oracle. -/
theorem get_calendar_events_total_witness :
    get_calendar_events (fun _ => .error "boom") ⟨none, none, none, none, none⟩ =
      ([], ["Ошибка получения событий: " ++ "boom"]) :=
  (get_calendar_events_total (fun _ => .error "boom") ⟨none, none, none, none, none⟩
    "boom" ⟨none⟩).1 rfl

/-- C4: for a user id absent from `users_storage`, `/events/<user_id>`
answers 401 `User not authorized`, the `/status` command replies with the
not-connected message, and the `/events` command replies with the
not-connected prompt while its trace holds no calendar fetch. -/
theorem unauthorized_user_responses (g : CredRec → List CalendarEvent)
    (baseURL : String) (store : List (String × UserData)) (chatId fromId : Int)
    (h : store.lookup (toString fromId) = none) :
    get_user_events g store (toString fromId) = (401, .err "User not authorized") ∧
    telegram_webhook g baseURL store (mkMsgUpdate chatId fromId "/status") =
      .ok ([.sendMessage (.ofInt chatId) statusNotConnectedReply], .okTrue) ∧
    telegram_webhook g baseURL store (mkMsgUpdate chatId fromId "/events") =
      .ok ([.sendMessage (.ofInt chatId) notConnectedReply], .okTrue) := by
  refine ⟨?_, ?_, ?_⟩ <;> simp [get_user_events, telegram_webhook, mkMsgUpdate, h]

/-- Witness for C4 on the empty store. -/
theorem unauthorized_user_responses_witness :
    get_user_events (fun _ => []) [] (toString (7 : Int)) = (401, .err "User not authorized") ∧
    telegram_webhook (fun _ => []) "" [] (mkMsgUpdate 5 7 "/status") =
      .ok ([.sendMessage (.ofInt 5) statusNotConnectedReply], .okTrue) ∧
    telegram_webhook (fun _ => []) "" [] (mkMsgUpdate 5 7 "/events") =
      .ok ([.sendMessage (.ofInt 5) notConnectedReply], .okTrue) :=
  unauthorized_user_responses (fun _ => []) "" [] 5 7 rfl

/-- C5 counterexample: the malformed payload whose `message` is the empty
dict makes `message['chat']` raise `KeyError`, so the handler does not
reply `ok` at all. -/
theorem webhook_not_always_ok :
    telegram_webhook (fun _ => []) "" []
        { message := some { chat := none, from_ := none, text := none } } =
      .error .keyError := rfl

/-- The payloads on which the handler cannot raise: no `message`, or a
message carrying `chat.id` and `from.id` and, when its text is `/events`
and the sender has stored credentials, only fetched events with a start
value among the first five. -/
def wfWebhookUpdate (g : CredRec → List CalendarEvent)
    (store : List (String × UserData)) (data : TgUpdate) : Prop :=
  data.message = none ∨
    ∃ m, data.message = some m ∧
      (∃ c cid, m.chat = some c ∧ c.id = some cid) ∧
      ∃ f fid, m.from_ = some f ∧ f.id = some fid ∧
        (m.text.getD "" = "/events" →
          ∀ ud creds, store.lookup (toString fid) = some ud →
            ud.credentials = some creds →
            ∀ e ∈ (g creds).take 5, (startString e).isSome = true)

/-- C5 amended: the webhook replies the body `ok: true` for every payload
that is well formed in the sense of `wfWebhookUpdate`; on other payloads
the handler can raise (see the counterexample). -/
theorem webhook_ok_on_wf_payloads (g : CredRec → List CalendarEvent)
    (baseURL : String) (store : List (String × UserData)) (data : TgUpdate)
    (h : wfWebhookUpdate g store data) :
    ∃ tr, telegram_webhook g baseURL store data = .ok (tr, .okTrue) := by
  rcases h with h | ⟨m, hm, ⟨c, cid, hc, hcid⟩, f, fid, hf, hfid, hev⟩
  · exact ⟨[], by simp [telegram_webhook, h]⟩
  · rw [show data = { message := some m } by cases data; simp_all]
    by_cases h1 : m.text.getD "" = "/start"
    · exact ⟨[.sendMessage (.ofInt cid) (startReply baseURL (toString fid) cid)],
        by simp [telegram_webhook, hc, hcid, hf, hfid, h1]⟩
    · by_cases h2 : m.text.getD "" = "/events"
      · cases hl : store.lookup (toString fid) with
        | none =>
          exact ⟨[.sendMessage (.ofInt cid) notConnectedReply],
            by simp [telegram_webhook, hc, hcid, hf, hfid, h2, hl]⟩
        | some ud =>
          cases hcr : ud.credentials with
          | none =>
            exact ⟨[.sendMessage (.ofInt cid) notConnectedReply],
              by simp [telegram_webhook, hc, hcid, hf, hfid, h2, hl, hcr]⟩
          | some creds =>
            obtain ⟨s, hs⟩ := formatEventsReply_ok (g creds) (hev h2 ud creds hl hcr)
            exact ⟨[.fetchEvents creds, .sendMessage (.ofInt cid) s],
              by simp [telegram_webhook, hc, hcid, hf, hfid, h2, hl, hcr, hs]⟩
      · by_cases h3 : m.text.getD "" = "/status"
        · exact ⟨[.sendMessage (.ofInt cid)
              (if (store.lookup (toString fid)).isSome then statusConnectedReply
               else statusNotConnectedReply)],
            by simp [telegram_webhook, hc, hcid, hf, hfid, h1, h2, h3]⟩
        · by_cases h4 : m.text.getD "" = "/help"
          · exact ⟨[.sendMessage (.ofInt cid) helpReply],
              by simp [telegram_webhook, hc, hcid, hf, hfid, h1, h2, h3, h4]⟩
          · exact ⟨[], by simp [telegram_webhook, hc, hcid, hf, hfid, h1, h2, h3, h4]⟩

/-- Witness for the amended C5 on a concrete well-formed payload. -/
theorem webhook_ok_on_wf_payloads_witness :
    ∃ tr, telegram_webhook (fun _ => []) "" [] (mkMsgUpdate 5 7 "/status") = .ok (tr, .okTrue) :=
  webhook_ok_on_wf_payloads (fun _ => []) "" [] (mkMsgUpdate 5 7 "/status")
    (Or.inr ⟨_, rfl, ⟨_, 5, rfl, rfl⟩, _, 7, rfl, rfl, by intro hx; simp at hx⟩)

/-- C6: a well-formed message whose text is none of the four commands
produces no effect at all (no Telegram send, no calendar fetch) and no
error; the handler still replies `ok: true`. -/
theorem unknown_text_silently_ignored (g : CredRec → List CalendarEvent)
    (baseURL : String) (store : List (String × UserData)) (m : TgMessage)
    (c : TgChat) (f : TgFrom) (cid fid : Int) (t : String)
    (hc : m.chat = some c) (hcid : c.id = some cid)
    (hf : m.from_ = some f) (hfid : f.id = some fid) (ht : m.text = some t)
    (h1 : t ≠ "/start") (h2 : t ≠ "/events") (h3 : t ≠ "/status") (h4 : t ≠ "/help") :
    telegram_webhook g baseURL store { message := some m } = .ok ([], .okTrue) := by
  simp [telegram_webhook, hc, hcid, hf, hfid, ht, h1, h2, h3, h4]

/-- Witness for C6 on a concrete unrecognized text. -/
theorem unknown_text_silently_ignored_witness :
    telegram_webhook (fun _ => []) "" []
        { message := some { chat := some { id := some 5 }, from_ := some { id := some 7 }, text := some "hello" } } =
      .ok ([], .okTrue) :=
  unknown_text_silently_ignored (fun _ => []) "" [] _ _ _ 5 7 "hello"
    rfl rfl rfl rfl rfl (by decide) (by decide) (by decide) (by decide)

/-- C7: the `/help` reply is one constant string: two webhook runs over any
two store contents (and any two fetch oracles) produce identical results,
namely a single send of the static help text. -/
theorem help_reply_store_independent (g1 g2 : CredRec → List CalendarEvent)
    (baseURL : String) (s1 s2 : List (String × UserData)) (chatId fromId : Int) :
    telegram_webhook g1 baseURL s1 (mkMsgUpdate chatId fromId "/help") =
      telegram_webhook g2 baseURL s2 (mkMsgUpdate chatId fromId "/help") ∧
    telegram_webhook g1 baseURL s1 (mkMsgUpdate chatId fromId "/help") =
      .ok ([.sendMessage (.ofInt chatId) helpReply], .okTrue) := by
  constructor <;> simp [telegram_webhook, mkMsgUpdate]

/-- C8: with `TELEGRAM_BOT_TOKEN` unset the code still builds the
`botNone` URL and posts to it; under the platform's behavior of rejecting
such a request (`rejectsSend`: transport error or status 400 and above,
which `raise_for_status` raises on), the call is caught, so the function
returns `false` without raising and logs the send failure. -/
theorem send_fails_without_token
    (httpPost : String → TgSendPayload → Except String HttpResp)
    (chat_id : Dest) (text : String)
    (h : ∀ p, rejectsSend (httpPost (sendMessageUrl none) p) = true) :
    (send_telegram_message none httpPost chat_id text).1 = false ∧
    ∃ s, (send_telegram_message none httpPost chat_id text).2 =
      ["Ошибка отправки сообщения: " ++ s] := by
  have h' := h { chat_id := chat_id, text := text, parse_mode := "HTML" }
  unfold send_telegram_message
  cases hp : httpPost (sendMessageUrl none) { chat_id := chat_id, text := text, parse_mode := "HTML" } with
  | error e => simp [hp]
  | ok resp =>
    rw [hp] at h'
    have h400 : 400 ≤ resp.status := by simpa [rejectsSend] using h'
    simp [hp, h400]

/-- Witness for C8 with a concretely failing post. -/
theorem send_fails_without_token_witness :
    (send_telegram_message none (fun _ _ => .error "404 Not Found") (.ofInt 1) "hi").1 = false ∧
    ∃ s, (send_telegram_message none (fun _ _ => .error "404 Not Found") (.ofInt 1) "hi").2 =
      ["Ошибка отправки сообщения: " ++ s] :=
  send_fails_without_token (fun _ _ => .error "404 Not Found") (.ofInt 1) "hi" (fun _ => rfl)

/-- C9: a firing of the scheduler contributes nothing for a `UserRecord`
missing the `credentials` key or the `chat_id` key: removing such a record
from `users_storage` leaves the firing's effect trace (fetches and sends)
unchanged. -/
theorem scheduler_skips_incomplete_records (parse : String → Option ℚ) (now : ℚ)
    (g : CredRec → List CalendarEvent) (pre post : List (String × UserData))
    (uid : String) (ud : UserData)
    (h : ud.credentials = none ∨ ud.chat_id = none) :
    check_upcoming_events parse now g (pre ++ (uid, ud) :: post) =
      check_upcoming_events parse now g (pre ++ post) := by
  have hskip : checkUser parse now g ud = [] := by
    obtain ⟨cr, ch⟩ := ud
    rcases h with h | h
    · have hcr : cr = none := h
      subst hcr
      cases ch <;> rfl
    · have hch : ch = none := h
      subst hch
      cases cr <;> rfl
  induction pre with
  | nil => simp [check_upcoming_events, hskip]
  | cons p rest ih =>
    obtain ⟨k, v⟩ := p
    simp [check_upcoming_events, ih]

/-- Witness for C9 on a record with neither key. -/
theorem scheduler_skips_incomplete_records_witness :
    check_upcoming_events (fun _ => none) 0 (fun _ => [])
        ([] ++ ("u", { credentials := none, chat_id := none }) :: []) =
      check_upcoming_events (fun _ => none) 0 (fun _ => []) ([] ++ []) :=
  scheduler_skips_incomplete_records (fun _ => none) 0 (fun _ => []) [] [] "u"
    { credentials := none, chat_id := none } (Or.inl rfl)

/-- Frame lemma for the dict write: inserting under one key leaves every
other key's lookup unchanged. -/
theorem lookup_dictInsert_ne (k uid : String) (v : UserData) (hne : k ≠ uid) :
    ∀ s : List (String × UserData),
      List.lookup k (dictInsert s uid v) = List.lookup k s := by
  have hbeq : (k == uid) = false := beq_eq_false_iff_ne.mpr hne
  intro s
  induction s with
  | nil => simp [dictInsert, List.lookup, hbeq]
  | cons p rest ih =>
    obtain ⟨k', v'⟩ := p
    by_cases hk : k' = uid
    · subst hk
      simp [dictInsert, List.lookup, hbeq]
    · simp [dictInsert, hk, List.lookup, ih]

/-- C10: a successful OAuth callback touches only the record keyed by the
session's stashed user id: the stored record of every other key is the same
before and after the callback. -/
theorem callback_writes_only_stashed_key (creds : CredRec) (sess : OAuthSession)
    (store : List (String × UserData)) (k : String)
    (h : ∀ u, sess.telegram_user_id = some u → k ≠ u) :
    List.lookup k (auth_google_callback (.ok creds) sess store).1 =
      List.lookup k store := by
  cases hu : sess.telegram_user_id with
  | none => simp [auth_google_callback, hu]
  | some uid =>
    by_cases he : uid = ""
    · simp [auth_google_callback, hu, he]
    · have hrw : (auth_google_callback (.ok creds) sess store).1 =
          dictInsert store uid { credentials := some creds, chat_id := some sess.chat_id } := by
        simp [auth_google_callback, hu, he]
      rw [hrw]
      exact lookup_dictInsert_ne k uid
        { credentials := some creds, chat_id := some sess.chat_id } (h uid hu) store

/-- Witness for C10: a callback stashing user `a` leaves key `b` alone. -/
theorem callback_writes_only_stashed_key_witness :
    List.lookup "b" (auth_google_callback (.ok ⟨none, none, none, none, none⟩)
        { telegram_user_id := some "a", chat_id := none } []).1 =
      List.lookup "b" ([] : List (String × UserData)) :=
  callback_writes_only_stashed_key ⟨none, none, none, none, none⟩
    { telegram_user_id := some "a", chat_id := none } [] "b"
    (by intro u hu; simp at hu; subst hu; decide)

/-- Helper for C1: on a well-formed fetched list the per-event loop emits
exactly the reminder calls the claim wording prescribes. -/
theorem processEvents_eq_spec (parse : String → Option ℚ) (now : ℚ) (chat : Dest) :
    ∀ events, wfEvents parse events = true →
      processEvents parse now chat events = specReminderCalls parse now chat events := by
  intro events
  induction events with
  | nil => intro _; rfl
  | cons e rest ih =>
    intro h
    rw [wfEvents, List.all_cons, Bool.and_eq_true] at h
    obtain ⟨he, hrest⟩ := h
    have ih' := ih hrest
    simp only [processEvents, specReminderCalls, List.filterMap_cons]
    cases hs : startString e with
    | none => simp [wfEvent, hs] at he
    | some s =>
      cases hT : charIn 'T' s with
      | false => simp [qualifiesSpec, hs, hT, ih', specReminderCalls]
      | true =>
        simp only [wfEvent, hs, hT, Bool.not_true, Bool.false_or] at he
        obtain ⟨t, ht⟩ := Option.isSome_iff_exists.mp he
        by_cases hband : 14 ≤ (t - now) / 60 ∧ (t - now) / 60 ≤ 16
        · simp [qualifiesSpec, hs, hT, ht, hband.1, hband.2, ih', specReminderCalls]
        · simp [qualifiesSpec, hs, hT, ht, hband, ih', specReminderCalls]

/-- C1: over a connected user's well-formed fetched events, one scheduler
firing fetches once and then sends exactly one reminder per event whose
parsed date-time start lies 14 to 16 minutes (inclusive) after now, and
none for any other event. -/
theorem scheduler_reminder_band (parse : String → Option ℚ) (now : ℚ)
    (g : CredRec → List CalendarEvent) (uid : String) (creds : CredRec)
    (chatVal : Option String)
    (h : wfEvents parse (g creds) = true) :
    check_upcoming_events parse now g
        [(uid, { credentials := some creds, chat_id := some chatVal })] =
      Effect.fetchEvents creds ::
        specReminderCalls parse now (destOfPy chatVal) (g creds) := by
  simp [check_upcoming_events, checkUser,
    processEvents_eq_spec parse now (destOfPy chatVal) (g creds) h]

/-- A concrete parse oracle for the witnesses: one date-time string mapping
to 900 seconds (15 minutes) past the epoch used as `now`. -/
def demoParse : String → Option ℚ :=
  fun s => if s = "2025-01-01T12:15:00+00:00" then some 900 else none

/-- A concrete date-time event for the witnesses. -/
def demoEvent : CalendarEvent :=
  { id := none, summary := some "Call"
    start := some { dateTime := some "2025-01-01T12:15:00+00:00", date := none }
    location := none, description := none }

/-- A concrete credentials record for the witnesses. -/
def demoCreds : CredRec := ⟨none, none, none, none, none⟩

/-- Witness for C1: a single user with one event starting in 15 minutes. -/
theorem scheduler_reminder_band_witness :
    check_upcoming_events demoParse 0 (fun _ => [demoEvent])
        [("u", { credentials := some demoCreds, chat_id := some (some "100") })] =
      Effect.fetchEvents demoCreds ::
        specReminderCalls demoParse 0 (destOfPy (some "100")) [demoEvent] :=
  scheduler_reminder_band demoParse 0 (fun _ => [demoEvent]) "u" demoCreds (some "100")
    (by rfl)

/-- Helper for C2: every send the per-event loop emits is the reminder of a
listed event whose start string contains 'T'. -/
theorem processEvents_sends_from_T (parse : String → Option ℚ) (now : ℚ) (chat : Dest) :
    ∀ events eff, eff ∈ processEvents parse now chat events →
      ∃ e ∈ events, ∃ s, startString e = some s ∧ charIn 'T' s = true ∧
        eff = Effect.sendMessage chat (reminderText e) := by
  intro events
  induction events with
  | nil => intro eff h; simp [processEvents] at h
  | cons e rest ih =>
    intro eff h
    simp only [processEvents] at h
    cases hs : startString e with
    | none => rw [hs] at h; simp at h
    | some s =>
      rw [hs] at h
      by_cases hT : charIn 'T' s = true
      · simp only [hT, if_true] at h
        cases hp : parse s with
        | none => rw [hp] at h; simp at h
        | some t =>
          rw [hp] at h
          by_cases hband : 14 ≤ (t - now) / 60 ∧ (t - now) / 60 ≤ 16
          · simp only [hband, if_true] at h
            rcases List.mem_cons.mp h with heq | hmem
            · exact ⟨e, List.mem_cons_self e rest, s, hs, hT, heq⟩
            · obtain ⟨e', he', s', hs', hT', heq'⟩ := ih eff hmem
              exact ⟨e', List.mem_cons_of_mem _ he', s', hs', hT', heq'⟩
          · simp only [hband, if_false] at h
            obtain ⟨e', he', s', hs', hT', heq'⟩ := ih eff h
            exact ⟨e', List.mem_cons_of_mem _ he', s', hs', hT', heq'⟩
      · simp only [hT, if_false] at h
        obtain ⟨e', he', s', hs', hT', heq'⟩ := ih eff h
        exact ⟨e', List.mem_cons_of_mem _ he', s', hs', hT', heq'⟩

/-- C2: every reminder a firing sends originates from a stored user with
both keys and from one of that user's fetched events whose start string
contains 'T'; hence a date-only (all-day) event never triggers one. -/
theorem reminder_only_for_datetime_events (parse : String → Option ℚ) (now : ℚ)
    (g : CredRec → List CalendarEvent) (chat : Dest) (txt : String) :
    ∀ store : List (String × UserData),
      Effect.sendMessage chat txt ∈ check_upcoming_events parse now g store →
      ∃ p ∈ store, ∃ creds chatVal,
        p.2.credentials = some creds ∧ p.2.chat_id = some chatVal ∧
        chat = destOfPy chatVal ∧
        ∃ e ∈ g creds, ∃ s, startString e = some s ∧ charIn 'T' s = true ∧
          txt = reminderText e := by
  intro store
  induction store with
  | nil => intro h; simp [check_upcoming_events] at h
  | cons p rest ih =>
    obtain ⟨k, ud⟩ := p
    intro h
    simp only [check_upcoming_events] at h
    rcases List.mem_append.mp h with h | h
    · obtain ⟨cr, ch⟩ := ud
      cases cr with
      | none => simp [checkUser] at h
      | some creds =>
        cases ch with
        | none => simp [checkUser] at h
        | some chatVal =>
          simp only [checkUser] at h
          rcases List.mem_cons.mp h with hfe | hmem
          · simp at hfe
          · obtain ⟨e, he, s, hs, hT, heq⟩ :=
              processEvents_sends_from_T parse now (destOfPy chatVal) (g creds) _ hmem
            injection heq with hchat htxt
            exact ⟨(k, ⟨some creds, some chatVal⟩), List.mem_cons_self _ rest,
              creds, chatVal, rfl, rfl, hchat, e, he, s, hs, hT, htxt⟩
    · obtain ⟨q, hq, hP⟩ := ih h
      exact ⟨q, List.mem_cons_of_mem _ hq, hP⟩

/-- Witness for C2: the reminder sent for the demo event is traced back to
it. -/
theorem reminder_only_for_datetime_events_witness :
    ∃ p ∈ [("u", ({ credentials := some demoCreds, chat_id := some (some "100") } : UserData))],
      ∃ creds chatVal,
        p.2.credentials = some creds ∧ p.2.chat_id = some chatVal ∧
        Dest.ofStr "100" = destOfPy chatVal ∧
        ∃ e ∈ (fun _ => [demoEvent]) creds, ∃ s, startString e = some s ∧ charIn 'T' s = true ∧
          reminderText demoEvent = reminderText e :=
  reminder_only_for_datetime_events demoParse 0 (fun _ => [demoEvent])
    (Dest.ofStr "100") (reminderText demoEvent)
    [("u", { credentials := some demoCreds, chat_id := some (some "100") })]
    (by
      have hss : startString demoEvent = some "2025-01-01T12:15:00+00:00" := rfl
      have hT : charIn 'T' "2025-01-01T12:15:00+00:00" = true := rfl
      have hp : demoParse "2025-01-01T12:15:00+00:00" = some 900 := rfl
      simp [check_upcoming_events, checkUser, processEvents, destOfPy, hss, hT, hp]
      norm_num)
